import Mathlib

/-!
Shallow embedding of the repository's single source file, 'src/log.ts',
which defines the 'LogOptions' interface and the 'Log' class with its
one method 'Log.log'.

Pure data flow (argument disambiguation, URL and query-string
construction) is translated directly.  The asynchronous parts — the
promise executor, the completion callback passed to 'request(...)' and
the '.on(response, ...)' event handler — are embedded as explicit
state-passing functions over a 'HandlerState', driven by a 'Transcript'
value describing what the external HTTP transport does for the issued
request (the 'request' library fires the response event once when
headers arrive, and invokes the completion callback exactly once
afterwards, either with a transport error or with the fully buffered
body; an error may also arrive before any headers).

All observable actions of one invocation — resolve/reject calls on the
returned promise, invocations of the legacy done callback, the call to
'config.applyToRequest', the issued HTTP request and the bytes piped to
the caller's sink — are recorded in a 'CallTrace'.
-/

/-- Value stored in a JavaScript object used as query-string parameters:
the source puts strings, numbers and booleans into 'qs'. -/
inductive QsVal where
  | str (s : String)
  | num (n : Int)
  | bool (b : Bool)
  deriving DecidableEq

/-- A JavaScript object, as an insertion-ordered association list of
own enumerable properties. -/
abbrev JsObj := List (String × QsVal)

/-- JavaScript object-literal semantics of spreading an object and then
setting key 'k' to 'v' (the source's qs construction is the literal
with spread of options followed by the container key): if 'k' is
already present its value is replaced in place, otherwise the pair is
appended at the end. -/
def objSet (obj : JsObj) (k : String) (v : QsVal) : JsObj :=
  if (obj.lookup k).isSome then
    obj.map fun p => if p.1 = k then (k, v) else p
  else
    obj ++ [(k, v)]

/-- The 'LogOptions' interface of the source: optional server-side log
selection flags; 'none' is an absent field. -/
structure LogOptions where
  follow : Option Bool := none
  limitBytes : Option Int := none
  pretty : Option Bool := none
  previous : Option Bool := none
  sinceSeconds : Option Int := none
  tailLines : Option Int := none
  timestamps : Option Bool := none
  deriving DecidableEq

/-- The runtime JavaScript object denoted by a typed 'LogOptions' value:
each defined field appears once, in interface declaration order. -/
def LogOptions.toObj (o : LogOptions) : JsObj :=
  (o.follow.toList.map fun b => ("follow", QsVal.bool b)) ++
  (o.limitBytes.toList.map fun n => ("limitBytes", QsVal.num n)) ++
  (o.pretty.toList.map fun b => ("pretty", QsVal.bool b)) ++
  (o.previous.toList.map fun b => ("previous", QsVal.bool b)) ++
  (o.sinceSeconds.toList.map fun n => ("sinceSeconds", QsVal.num n)) ++
  (o.tailLines.toList.map fun n => ("tailLines", QsVal.num n)) ++
  (o.timestamps.toList.map fun b => ("timestamps", QsVal.bool b))

/-- The keys of the 'LogOptions' interface. -/
def logOptionKeys : List String :=
  ["follow", "limitBytes", "pretty", "previous", "sinceSeconds", "tailLines", "timestamps"]

/-- A cluster entry of the configuration: the source only reads its
'server' base URL. -/
structure Cluster where
  server : String
  deriving DecidableEq

/-- The 'request.Options' descriptor built by 'Log.log' (the fields the
source sets). -/
structure RequestOptions where
  method : String
  qs : JsObj
  uri : String
  deriving DecidableEq

/-- External configuration collaborator ('KubeConfig'): resolves the
currently active cluster and decorates a request descriptor with
authentication/TLS settings; the decoration is opaque to 'Log'. -/
structure KubeConfig where
  currentCluster : Option Cluster
  applyToRequest : RequestOptions → RequestOptions

def KubeConfig.getCurrentCluster (c : KubeConfig) : Option Cluster :=
  c.currentCluster

/-- The part of an HTTP response object the source reads. -/
structure IncomingMessage where
  statusCode : Nat
  deriving DecidableEq

/-- Deserialization target for non-200 bodies (the 'V1Status' object). -/
structure V1Status where
  kind : Option String := none
  code : Option Int := none
  message : Option String := none
  reason : Option String := none
  deriving DecidableEq

/-- Body payload carried by an 'HttpError': the deserialized 'V1Status'
when 'JSON.parse' plus 'ObjectSerializer.deserialize' succeed, the raw
body text otherwise. -/
inductive HttpBody where
  | status (s : V1Status)
  | raw (text : String)
  deriving DecidableEq

/-- The 'HttpError' the source constructs for non-200 responses:
'new HttpError(response, body, statusCode)'. -/
structure HttpError where
  response : IncomingMessage
  body : HttpBody
  statusCode : Nat
  deriving DecidableEq

/-- The in-flight request handle the transport returns, carrying the
(auth-decorated) options it was issued with. -/
structure InFlightRequest where
  opts : RequestOptions
  deriving DecidableEq

/-- Reason a rejection of the returned promise carries. 'thrown' models
an exception thrown inside the async method before the promise executor
runs (the configuration error), which surfaces as a rejection of the
returned promise. -/
inductive RejectReason where
  | thrown (msg : String)
  | transport (e : String)
  | httpError (he : HttpError)
  deriving DecidableEq

/-- One call to the promise executor's resolve or reject function. -/
inductive SettleCall where
  | resolve (req : InFlightRequest)
  | reject (r : RejectReason)
  deriving DecidableEq

def SettleCall.isReject : SettleCall → Bool
  | .resolve _ => false
  | .reject _ => true

/-- Argument of one invocation of the legacy done callback. -/
inductive DoneArg where
  | null
  | err (e : String)
  | body (b : String)
  deriving DecidableEq

/-- Behaviour of the HTTP transport for one issued request: a transport
error before any headers; headers followed by a transport error during
the body (with the data delivered before the error); or headers
followed by normal completion with the full body.  The transport
invokes the completion callback exactly once per request. -/
inductive Transcript where
  | errorBeforeHeaders (e : String)
  | headersThenError (status : Nat) (dataBeforeError : String) (e : String)
  | headersThenBody (status : Nat) (body : String)
  deriving DecidableEq

/-- Status code of the response headers, when headers arrived. -/
def Transcript.headersStatus : Transcript → Option Nat
  | .errorBeforeHeaders _ => none
  | .headersThenError status _ _ => some status
  | .headersThenBody status _ => some status

/-- Bytes the transport delivers on the response stream. -/
def Transcript.deliveredBody : Transcript → String
  | .errorBeforeHeaders _ => ""
  | .headersThenError _ dataBeforeError _ => dataBeforeError
  | .headersThenBody _ body => body

/-- Environment of one invocation: the composite
'ObjectSerializer.deserialize(JSON.parse(body), V1Status)' step (none
when either throws), and the transport behaviour for the issued
request. -/
structure Env where
  parseStatus : String → Option V1Status
  transcript : Transcript

/-- State observed while the promise executor's two handlers run:
settlement attempts in order, done-callback invocations in order, and
whether 'req.pipe(stream)' has been set up. -/
structure HandlerState where
  settles : List SettleCall
  dones : List DoneArg
  piped : Bool
  deriving DecidableEq

def resolveP (s : HandlerState) (req : InFlightRequest) : HandlerState :=
  { s with settles := s.settles ++ [SettleCall.resolve req] }

def rejectP (s : HandlerState) (r : RejectReason) : HandlerState :=
  { s with settles := s.settles ++ [SettleCall.reject r] }

def callDone (s : HandlerState) (a : DoneArg) : HandlerState :=
  { s with dones := s.dones ++ [a] }

/-- The completion callback the source passes to 'request(...)': if
there is an error, reject with it and call done with it; else if the
status code is not 200, deserialize the body as 'V1Status' and reject
with an 'HttpError' carrying the deserialized body (or, when
deserialization throws, the raw body), then call done with the raw
body; else call done with null. -/
def completionCallback (parseStatus : String → Option V1Status)
    (error : Option String) (response : IncomingMessage) (body : String)
    (s : HandlerState) : HandlerState :=
  match error with
  | some e => callDone (rejectP s (RejectReason.transport e)) (DoneArg.err e)
  | none =>
    if response.statusCode ≠ 200 then
      let s1 :=
        match parseStatus body with
        | some deserializedBody =>
            rejectP s (RejectReason.httpError
              ⟨response, HttpBody.status deserializedBody, response.statusCode⟩)
        | none =>
            rejectP s (RejectReason.httpError
              ⟨response, HttpBody.raw body, response.statusCode⟩)
      callDone s1 (DoneArg.body body)
    else
      callDone s DoneArg.null

/-- The response event handler of the source: when the status code is
exactly 200, pipe the in-flight request into the sink and resolve the
promise with the in-flight request handle; otherwise do nothing. -/
def onResponse (req : InFlightRequest) (response : IncomingMessage)
    (s : HandlerState) : HandlerState :=
  if response.statusCode = 200 then
    resolveP { s with piped := true } req
  else
    s

/-- Result of running the promise executor against a transcript. -/
structure PromiseTrace where
  settles : List SettleCall
  dones : List DoneArg
  sink : List String
  deriving DecidableEq

/-- Runs the promise executor against a transport transcript: the
response handler fires when headers arrive (before completion), then
the completion callback fires exactly once; the bytes delivered on the
response stream reach the sink exactly when piping was set up. -/
def runPromise (parseStatus : String → Option V1Status) (req : InFlightRequest)
    (t : Transcript) : PromiseTrace :=
  let s0 : HandlerState := ⟨[], [], false⟩
  let s1 :=
    match t with
    | .errorBeforeHeaders e =>
        completionCallback parseStatus (some e) ⟨0⟩ "" s0
    | .headersThenError status _ e =>
        completionCallback parseStatus (some e) ⟨status⟩ "" (onResponse req ⟨status⟩ s0)
    | .headersThenBody status body =>
        completionCallback parseStatus none ⟨status⟩ body (onResponse req ⟨status⟩ s0)
  ⟨s1.settles, s1.dones, if s1.piped then [t.deliveredBody] else []⟩

/-- Observable actions of one 'Log.log' invocation. -/
structure CallTrace where
  settleCalls : List SettleCall
  doneCalls : List DoneArg
  applyCalls : List RequestOptions
  httpCalls : List RequestOptions
  sinkWrites : List String
  deriving DecidableEq

/-- Effective outcome of the returned promise: by promise semantics the
first resolve or reject call wins and later ones have no effect. -/
def CallTrace.outcome (t : CallTrace) : Option SettleCall :=
  t.settleCalls.head?

/-- Runtime type of the fifth argument of 'Log.log': a function value,
an options object, or undefined. -/
inductive DoneOrOptions where
  | func
  | obj (o : JsObj)
  | undef

/-- The 'Log' class: holds a 'KubeConfig'. -/
structure Log where
  config : KubeConfig

/-- The path template the source builds by string interpolation. -/
def logPath (ns podName : String) : String :=
  "/api/v1/namespaces/" ++ ns ++ "/pods/" ++ podName ++ "/log"

/-- The 'Log.log' method.  Disambiguates the fifth argument by runtime
type (a function is the legacy done callback, anything else — including
undefined — is assigned to options, discarding the sixth argument);
computes the path; resolves the current cluster, throwing the
configuration error when absent; builds the request descriptor with
query string equal to the spread of options with the container key set
to the container name; applies the configuration to the request; issues
it and runs the promise executor with the two transport handlers. -/
def Log.log (self : Log) (ns podName containerName : String)
    (doneOrOptions : DoneOrOptions) (options : Option JsObj) (env : Env) : CallTrace :=
  let options :=
    match doneOrOptions with
    | .func => options
    | .obj o => some o
    | .undef => none
  let path := logPath ns podName
  match self.config.getCurrentCluster with
  | none =>
      { settleCalls := [SettleCall.reject (RejectReason.thrown "No currently active cluster")],
        doneCalls := [], applyCalls := [], httpCalls := [], sinkWrites := [] }
  | some cluster =>
      let url := cluster.server ++ path
      let requestOptions : RequestOptions :=
        { method := "GET",
          qs := objSet (options.getD []) "container" (QsVal.str containerName),
          uri := url }
      let applied := self.config.applyToRequest requestOptions
      let req : InFlightRequest := ⟨applied⟩
      let p := runPromise env.parseStatus req env.transcript
      { settleCalls := p.settles, doneCalls := p.dones,
        applyCalls := [requestOptions], httpCalls := [applied],
        sinkWrites := p.sink }

/-! Lemmas about association-list lookup, the object-literal update
'objSet', and the runtime object of a typed 'LogOptions' value. -/

theorem lookup_keys_ne (obj : JsObj) (k : String)
    (h : ∀ p ∈ obj, p.1 ≠ k) : obj.lookup k = none := by
  induction obj with
  | nil => rfl
  | cons hd tl ih =>
    obtain ⟨a, b⟩ := hd
    have ha : a ≠ k := h (a, b) (List.mem_cons_self _ _)
    simp only [List.lookup_cons, beq_eq_false_iff_ne.mpr (Ne.symm ha)]
    exact ih fun p hp => h p (List.mem_cons_of_mem _ hp)

theorem lookup_append_skip (obj rest : JsObj) (k : String)
    (h : ∀ p ∈ rest, p.1 ≠ k) : (obj ++ rest).lookup k = obj.lookup k := by
  induction obj with
  | nil => simpa using lookup_keys_ne rest k h
  | cons hd tl ih =>
    obtain ⟨a, b⟩ := hd
    by_cases hk : k = a
    · subst hk
      simp only [List.cons_append, List.lookup_cons, beq_self_eq_true]
    · simp only [List.cons_append, List.lookup_cons, beq_eq_false_iff_ne.mpr hk]
      exact ih

theorem lookup_append_left_none (obj rest : JsObj) (k : String)
    (h : obj.lookup k = none) : (obj ++ rest).lookup k = rest.lookup k := by
  induction obj with
  | nil => rfl
  | cons hd tl ih =>
    obtain ⟨a, b⟩ := hd
    by_cases hk : k = a
    · subst hk
      simp [List.lookup_cons] at h
    · simp only [List.cons_append, List.lookup_cons,
        beq_eq_false_iff_ne.mpr hk] at h ⊢
      exact ih h

theorem lookup_map_set (obj : JsObj) (k : String) (v : QsVal) :
    (obj.map fun p => if p.1 = k then (k, v) else p).lookup k =
      (obj.lookup k).map fun _ => v := by
  induction obj with
  | nil => rfl
  | cons hd tl ih =>
    obtain ⟨a, b⟩ := hd
    by_cases hk : a = k
    · subst hk
      simp [List.lookup_cons]
    · simp only [List.map_cons, if_neg hk, List.lookup_cons,
        beq_eq_false_iff_ne.mpr (Ne.symm hk)]
      exact ih

theorem lookup_map_set_other (obj : JsObj) (k k' : String) (v : QsVal) (h : k' ≠ k) :
    (obj.map fun p => if p.1 = k then (k, v) else p).lookup k' = obj.lookup k' := by
  induction obj with
  | nil => rfl
  | cons hd tl ih =>
    obtain ⟨a, b⟩ := hd
    by_cases hk : a = k
    · subst hk
      simp only [List.map_cons, List.lookup_cons, if_true]
      simp only [beq_eq_false_iff_ne.mpr h]
      exact ih
    · simp only [List.map_cons, if_neg hk, List.lookup_cons]
      by_cases hk' : k' = a
      · subst hk'
        simp
      · simp only [beq_eq_false_iff_ne.mpr hk']
        exact ih

/-- Setting key 'k' with object-literal semantics makes lookup of 'k'
return the new value, whether or not 'k' was present. -/
theorem lookup_objSet_self (obj : JsObj) (k : String) (v : QsVal) :
    (objSet obj k v).lookup k = some v := by
  unfold objSet
  by_cases h : (obj.lookup k).isSome
  · rw [if_pos h, lookup_map_set]
    obtain ⟨w, hw⟩ := Option.isSome_iff_exists.mp h
    rw [hw]
    rfl
  · rw [if_neg h, lookup_append_left_none _ _ _ (Option.not_isSome_iff_eq_none.mp h)]
    simp [List.lookup_cons]

/-- Setting key 'k' leaves lookup of every other key unchanged. -/
theorem lookup_objSet_other (obj : JsObj) (k k' : String) (v : QsVal) (h : k' ≠ k) :
    (objSet obj k v).lookup k' = obj.lookup k' := by
  unfold objSet
  by_cases hs : (obj.lookup k).isSome
  · rw [if_pos hs]
    exact lookup_map_set_other obj k k' v h
  · rw [if_neg hs]
    refine lookup_append_skip obj [(k, v)] k' ?_
    intro p hp
    simp only [List.mem_singleton] at hp
    subst hp
    exact Ne.symm h

/-- Every entry of the runtime object of one optional field has that
field's key. -/
theorem mem_optFieldKey {α : Type} {k : String} {f : α → QsVal} {ov : Option α}
    {p : String × QsVal} (hp : p ∈ ov.toList.map fun v => (k, f v)) : p.1 = k := by
  cases ov with
  | none => simp at hp
  | some v =>
    simp only [Option.toList_some, List.map_cons, List.map_nil,
      List.mem_singleton] at hp
    subst hp
    rfl

/-- Every key of the runtime object of a typed 'LogOptions' value is one
of the seven interface keys. -/
theorem toObj_key_mem (o : LogOptions) (p : String × QsVal) (hp : p ∈ o.toObj) :
    p.1 ∈ logOptionKeys := by
  unfold LogOptions.toObj at hp
  simp only [List.append_assoc, List.mem_append] at hp
  rcases hp with h | h | h | h | h | h | h <;> rw [mem_optFieldKey h] <;> decide

/-- Lookup of a key in the one-field segment of a different key falls
through to the rest. -/
theorem lookup_optField_skip {α : Type} (k k' : String) (hne : k ≠ k')
    (f : α → QsVal) (ov : Option α) (rest : JsObj) :
    ((ov.toList.map fun v => (k', f v)) ++ rest).lookup k = rest.lookup k := by
  cases ov with
  | none => rfl
  | some v =>
    simp only [Option.toList_some, List.map_cons, List.map_nil, List.cons_append,
      List.nil_append, List.lookup_cons, beq_eq_false_iff_ne.mpr hne]

/-- Lookup of a key in its own one-field segment yields the field's
value when the rest does not contain the key. -/
theorem lookup_optField_self {α : Type} (k : String) (f : α → QsVal) (ov : Option α)
    (rest : JsObj) (hrest : rest.lookup k = none) :
    ((ov.toList.map fun v => (k, f v)) ++ rest).lookup k = ov.map f := by
  cases ov with
  | none => simpa using hrest
  | some v =>
    simp only [Option.toList_some, List.map_cons, List.map_nil, List.cons_append,
      List.nil_append, List.lookup_cons, beq_self_eq_true]
    rfl

/-- Lookup of a key in a bare one-field segment of a different key is
none. -/
theorem lookup_optField_last {α : Type} (k k' : String) (hne : k ≠ k')
    (f : α → QsVal) (ov : Option α) :
    (ov.toList.map fun v => (k', f v)).lookup k = none := by
  cases ov with
  | none => rfl
  | some v =>
    simp only [Option.toList_some, List.map_cons, List.map_nil, List.lookup_cons,
      beq_eq_false_iff_ne.mpr hne]
    rfl

/-- Lookup of a key in its own bare one-field segment yields the
field's value. -/
theorem lookup_optField_self_last {α : Type} (k : String) (f : α → QsVal) (ov : Option α) :
    (ov.toList.map fun v => (k, f v)).lookup k = ov.map f := by
  cases ov with
  | none => rfl
  | some v =>
    simp only [Option.toList_some, List.map_cons, List.map_nil, List.lookup_cons,
      beq_self_eq_true]
    rfl

/-- Lookup of each of the seven interface keys in the runtime object of
a typed 'LogOptions' value yields exactly that field's value. -/
theorem toObj_lookups (o : LogOptions) :
    o.toObj.lookup "follow" = o.follow.map QsVal.bool ∧
    o.toObj.lookup "limitBytes" = o.limitBytes.map QsVal.num ∧
    o.toObj.lookup "pretty" = o.pretty.map QsVal.bool ∧
    o.toObj.lookup "previous" = o.previous.map QsVal.bool ∧
    o.toObj.lookup "sinceSeconds" = o.sinceSeconds.map QsVal.num ∧
    o.toObj.lookup "tailLines" = o.tailLines.map QsVal.num ∧
    o.toObj.lookup "timestamps" = o.timestamps.map QsVal.bool := by
  unfold LogOptions.toObj
  simp only [List.append_assoc]
  refine ⟨?_, ?_, ?_, ?_, ?_, ?_, ?_⟩
  · exact lookup_optField_self _ _ _ _ (by
      rw [lookup_optField_skip _ _ (by decide), lookup_optField_skip _ _ (by decide),
        lookup_optField_skip _ _ (by decide), lookup_optField_skip _ _ (by decide),
        lookup_optField_skip _ _ (by decide), lookup_optField_last _ _ (by decide)])
  · rw [lookup_optField_skip _ _ (by decide)]
    exact lookup_optField_self _ _ _ _ (by
      rw [lookup_optField_skip _ _ (by decide), lookup_optField_skip _ _ (by decide),
        lookup_optField_skip _ _ (by decide), lookup_optField_skip _ _ (by decide),
        lookup_optField_last _ _ (by decide)])
  · rw [lookup_optField_skip _ _ (by decide), lookup_optField_skip _ _ (by decide)]
    exact lookup_optField_self _ _ _ _ (by
      rw [lookup_optField_skip _ _ (by decide), lookup_optField_skip _ _ (by decide),
        lookup_optField_skip _ _ (by decide), lookup_optField_last _ _ (by decide)])
  · rw [lookup_optField_skip _ _ (by decide), lookup_optField_skip _ _ (by decide),
      lookup_optField_skip _ _ (by decide)]
    exact lookup_optField_self _ _ _ _ (by
      rw [lookup_optField_skip _ _ (by decide), lookup_optField_skip _ _ (by decide),
        lookup_optField_last _ _ (by decide)])
  · rw [lookup_optField_skip _ _ (by decide), lookup_optField_skip _ _ (by decide),
      lookup_optField_skip _ _ (by decide), lookup_optField_skip _ _ (by decide)]
    exact lookup_optField_self _ _ _ _ (by
      rw [lookup_optField_skip _ _ (by decide), lookup_optField_last _ _ (by decide)])
  · rw [lookup_optField_skip _ _ (by decide), lookup_optField_skip _ _ (by decide),
      lookup_optField_skip _ _ (by decide), lookup_optField_skip _ _ (by decide),
      lookup_optField_skip _ _ (by decide)]
    exact lookup_optField_self _ _ _ _ (by
      rw [lookup_optField_last _ _ (by decide)])
  · rw [lookup_optField_skip _ _ (by decide), lookup_optField_skip _ _ (by decide),
      lookup_optField_skip _ _ (by decide), lookup_optField_skip _ _ (by decide),
      lookup_optField_skip _ _ (by decide), lookup_optField_skip _ _ (by decide)]
    exact lookup_optField_self_last _ _ _

/-! Concrete fixtures used by witness and counterexample theorems. -/

def clusterA : Cluster := ⟨"https://server.example"⟩

def cfgA : KubeConfig := ⟨some clusterA, id⟩

def logA : Log := ⟨cfgA⟩

def cfgNoCluster : KubeConfig := ⟨none, id⟩

def parseNone : String → Option V1Status := fun _ => none

def envDefault : Env := ⟨parseNone, Transcript.errorBeforeHeaders "ECONNREFUSED"⟩

/-! Claim theorems. -/

/-- Claim C1: every invocation of Log.log reaches a terminal outcome for
the returned operation: on every execution path at least one resolve or
reject call is made, so the effective outcome — the first settle call,
which by promise first-settle-wins semantics is the unique one that
takes effect (never both) — exists; no path leaves the operation
silently unsettled. -/
theorem log_exactly_one_settle (self : Log) (ns podName containerName : String)
    (doneOrOptions : DoneOrOptions) (options : Option JsObj) (env : Env) :
    ∃ s, (Log.log self ns podName containerName doneOrOptions options env).outcome = some s := by
  rcases self with ⟨⟨cc, app⟩⟩
  rcases env with ⟨pS, t⟩
  cases cc with
  | none => exact ⟨_, rfl⟩
  | some cluster =>
    cases t with
    | errorBeforeHeaders e => exact ⟨_, rfl⟩
    | headersThenError status d e =>
      by_cases h : status = 200 <;>
        simp [Log.log, KubeConfig.getCurrentCluster, runPromise, completionCallback,
          onResponse, resolveP, rejectP, callDone, CallTrace.outcome, h]
    | headersThenBody status body =>
      by_cases h : status = 200
      · simp [Log.log, KubeConfig.getCurrentCluster, runPromise, completionCallback,
          onResponse, resolveP, rejectP, callDone, CallTrace.outcome, h]
      · cases hp : pS body <;>
          simp [Log.log, KubeConfig.getCurrentCluster, runPromise, completionCallback,
            onResponse, resolveP, rejectP, callDone, CallTrace.outcome, h, hp]

/-- Claim C2: when the configuration resolves no current cluster, the
call fails immediately with the configuration error and performs no I/O
at all: applyToRequest is not called, no HTTP request is issued, the
done callback is not invoked and nothing is written to the sink. -/
theorem log_no_cluster_fails_without_io (self : Log) (ns podName containerName : String)
    (doneOrOptions : DoneOrOptions) (options : Option JsObj) (env : Env)
    (h : self.config.getCurrentCluster = none) :
    Log.log self ns podName containerName doneOrOptions options env =
      { settleCalls := [SettleCall.reject (RejectReason.thrown "No currently active cluster")],
        doneCalls := [], applyCalls := [], httpCalls := [], sinkWrites := [] } := by
  rcases self with ⟨⟨cc, app⟩⟩
  simp only [KubeConfig.getCurrentCluster] at h
  subst h
  rfl

theorem log_no_cluster_fails_without_io_witness :
    Log.log ⟨cfgNoCluster⟩ "default" "pod-1" "main" DoneOrOptions.undef none envDefault =
      { settleCalls := [SettleCall.reject (RejectReason.thrown "No currently active cluster")],
        doneCalls := [], applyCalls := [], httpCalls := [], sinkWrites := [] } :=
  log_no_cluster_fails_without_io ⟨cfgNoCluster⟩ "default" "pod-1" "main"
    DoneOrOptions.undef none envDefault rfl

/-- Claim C8: with an active cluster, exactly one request descriptor is
constructed and its URI is the cluster's base server URL concatenated
with the fixed path template with namespace and pod name substituted
verbatim, for arbitrary identifier strings (no escaping or local
validation). -/
theorem log_request_uri (self : Log) (ns podName containerName : String)
    (doneOrOptions : DoneOrOptions) (options : Option JsObj) (env : Env) (cl : Cluster)
    (h : self.config.getCurrentCluster = some cl) :
    (Log.log self ns podName containerName doneOrOptions options env).applyCalls.map
        RequestOptions.uri =
      [cl.server ++ ("/api/v1/namespaces/" ++ ns ++ "/pods/" ++ podName ++ "/log")] := by
  rcases self with ⟨⟨cc, app⟩⟩
  simp only [KubeConfig.getCurrentCluster] at h
  subst h
  rfl

theorem log_request_uri_witness :
    (Log.log logA "kube-system" "mypod" "main" DoneOrOptions.undef none
        envDefault).applyCalls.map RequestOptions.uri =
      [clusterA.server ++ ("/api/v1/namespaces/" ++ "kube-system" ++ "/pods/" ++
        "mypod" ++ "/log")] :=
  log_request_uri logA "kube-system" "mypod" "main" DoneOrOptions.undef none
    envDefault clusterA rfl

/-- Claim C9: no bytes are written to the caller's sink unless response
headers with status code exactly 200 were received: on a transport
failure before headers and on any non-200 response the sink receives
nothing, because piping is set up only inside the status-200 headers
branch. -/
theorem log_sink_untouched_without_200 (self : Log) (ns podName containerName : String)
    (doneOrOptions : DoneOrOptions) (options : Option JsObj) (env : Env)
    (h : env.transcript.headersStatus ≠ some 200) :
    (Log.log self ns podName containerName doneOrOptions options env).sinkWrites = [] := by
  rcases self with ⟨⟨cc, app⟩⟩
  rcases env with ⟨pS, t⟩
  cases cc with
  | none => rfl
  | some cluster =>
    cases t with
    | errorBeforeHeaders e => rfl
    | headersThenError status d e =>
      have hs : status ≠ 200 := by simpa [Transcript.headersStatus] using h
      simp [Log.log, KubeConfig.getCurrentCluster, runPromise, completionCallback,
        onResponse, resolveP, rejectP, callDone, hs]
    | headersThenBody status body =>
      have hs : status ≠ 200 := by simpa [Transcript.headersStatus] using h
      cases hp : pS body <;>
        simp [Log.log, KubeConfig.getCurrentCluster, runPromise, completionCallback,
          onResponse, resolveP, rejectP, callDone, hs, hp]

theorem log_sink_untouched_without_200_witness :
    (Log.log logA "default" "pod-1" "main" DoneOrOptions.undef none
        ⟨parseNone, Transcript.headersThenBody 500 "oops"⟩).sinkWrites = [] :=
  log_sink_untouched_without_200 logA "default" "pod-1" "main" DoneOrOptions.undef none
    ⟨parseNone, Transcript.headersThenBody 500 "oops"⟩ (by decide)

/-- Claim C10: the fifth argument is disambiguated by its runtime type.
A non-function fifth argument (an options object, or undefined) is used
as the options, the sixth argument is ignored, a no-op default callback
is installed, and the entire observable behaviour — including whether
and how the operation resolves or rejects — is identical to the call
with an explicit callback and the same effective options; a function
fifth argument is used as the callback with the sixth argument as the
options. -/
theorem log_fifth_argument_disambiguation (self : Log) (ns podName containerName : String)
    (o : JsObj) (options : Option JsObj) (env : Env) :
    Log.log self ns podName containerName (DoneOrOptions.obj o) options env =
      Log.log self ns podName containerName DoneOrOptions.func (some o) env ∧
    Log.log self ns podName containerName DoneOrOptions.undef options env =
      Log.log self ns podName containerName DoneOrOptions.func none env :=
  ⟨rfl, rfl⟩

/-- Claim C3: with an active cluster, when the response arrives with
status code exactly 200 and the body completes, exactly one HTTP request
is issued, the operation resolves with the in-flight handle of that
request as its only settle call (so it does not reject), and the body
bytes are forwarded verbatim to the sink. -/
theorem log_status200_pipes_and_resolves (self : Log) (ns podName containerName : String)
    (doneOrOptions : DoneOrOptions) (options : Option JsObj)
    (pS : String → Option V1Status) (body : String) (cl : Cluster)
    (h : self.config.getCurrentCluster = some cl) :
    ∃ a,
      (Log.log self ns podName containerName doneOrOptions options
        ⟨pS, Transcript.headersThenBody 200 body⟩).httpCalls = [a] ∧
      (Log.log self ns podName containerName doneOrOptions options
        ⟨pS, Transcript.headersThenBody 200 body⟩).settleCalls =
        [SettleCall.resolve ⟨a⟩] ∧
      (Log.log self ns podName containerName doneOrOptions options
        ⟨pS, Transcript.headersThenBody 200 body⟩).sinkWrites = [body] := by
  rcases self with ⟨⟨cc, app⟩⟩
  simp only [KubeConfig.getCurrentCluster] at h
  subst h
  exact ⟨_, rfl, rfl, rfl⟩

theorem log_status200_pipes_and_resolves_witness :
    ∃ a,
      (Log.log logA "default" "pod-1" "main" DoneOrOptions.undef none
        ⟨parseNone, Transcript.headersThenBody 200 "line1\nline2\n"⟩).httpCalls = [a] ∧
      (Log.log logA "default" "pod-1" "main" DoneOrOptions.undef none
        ⟨parseNone, Transcript.headersThenBody 200 "line1\nline2\n"⟩).settleCalls =
        [SettleCall.resolve ⟨a⟩] ∧
      (Log.log logA "default" "pod-1" "main" DoneOrOptions.undef none
        ⟨parseNone, Transcript.headersThenBody 200 "line1\nline2\n"⟩).sinkWrites =
        ["line1\nline2\n"] :=
  log_status200_pipes_and_resolves logA "default" "pod-1" "main" DoneOrOptions.undef none
    parseNone "line1\nline2\n" clusterA rfl

/-- Claim C4: with an active cluster, when the request completes without
a transport error but with a status code other than 200, the operation's
only settle call is a rejection with an HttpError carrying the
response's status code and, as body, the deserialized status object
when deserialization succeeds or the raw body text when it fails. -/
theorem log_non200_rejects_httpError (self : Log) (ns podName containerName : String)
    (doneOrOptions : DoneOrOptions) (options : Option JsObj)
    (pS : String → Option V1Status) (status : Nat) (body : String) (cl : Cluster)
    (h : self.config.getCurrentCluster = some cl) (hs : status ≠ 200) :
    (Log.log self ns podName containerName doneOrOptions options
        ⟨pS, Transcript.headersThenBody status body⟩).settleCalls =
      [SettleCall.reject (RejectReason.httpError
        ⟨⟨status⟩,
         (match pS body with
          | some d => HttpBody.status d
          | none => HttpBody.raw body),
         status⟩)] := by
  rcases self with ⟨⟨cc, app⟩⟩
  simp only [KubeConfig.getCurrentCluster] at h
  subst h
  cases hp : pS body <;>
    simp [Log.log, KubeConfig.getCurrentCluster, runPromise, completionCallback,
      onResponse, resolveP, rejectP, callDone, hs, hp]

theorem log_non200_rejects_httpError_witness :
    (Log.log logA "default" "pod-1" "main" DoneOrOptions.undef none
        ⟨parseNone, Transcript.headersThenBody 500 "internal error"⟩).settleCalls =
      [SettleCall.reject (RejectReason.httpError
        ⟨⟨500⟩, HttpBody.raw "internal error", 500⟩)] :=
  log_non200_rejects_httpError logA "default" "pod-1" "main" DoneOrOptions.undef none
    parseNone 500 "internal error" clusterA rfl (by decide)

/-- Claim C5 counterexample: the claim says every invocation on which
the transport reports an error (including an abrupt close) rejects with
that transport error, but when the error arrives after a 200 response's
headers the promise has already resolved, so the effective outcome of
the operation is a resolve, not a reject. -/
theorem log_transport_error_after_stream_counterexample :
    ((Log.log logA "default" "pod-1" "main" DoneOrOptions.undef none
        ⟨parseNone, Transcript.headersThenError 200 "data" "ECONNRESET"⟩).outcome.map
      SettleCall.isReject) = some false := by
  rfl

/-- Claim C5 amended: with an active cluster, when the transport reports
an error before streaming began — before any headers, or after headers
whose status is not 200 — the operation rejects with that transport
error as its only settle call; when the error arrives after a 200
response's headers, the reject call is still made but follows the
resolve, which by promise semantics already took effect. -/
theorem log_transport_error_rejects_before_streaming (self : Log)
    (ns podName containerName : String) (doneOrOptions : DoneOrOptions)
    (options : Option JsObj) (pS : String → Option V1Status) (cl : Cluster)
    (h : self.config.getCurrentCluster = some cl) :
    (∀ e, (Log.log self ns podName containerName doneOrOptions options
        ⟨pS, Transcript.errorBeforeHeaders e⟩).settleCalls =
        [SettleCall.reject (RejectReason.transport e)]) ∧
    (∀ status d e, status ≠ 200 →
      (Log.log self ns podName containerName doneOrOptions options
        ⟨pS, Transcript.headersThenError status d e⟩).settleCalls =
        [SettleCall.reject (RejectReason.transport e)]) ∧
    (∀ d e, ∃ a,
      (Log.log self ns podName containerName doneOrOptions options
        ⟨pS, Transcript.headersThenError 200 d e⟩).settleCalls =
        [SettleCall.resolve ⟨a⟩, SettleCall.reject (RejectReason.transport e)]) := by
  rcases self with ⟨⟨cc, app⟩⟩
  simp only [KubeConfig.getCurrentCluster] at h
  subst h
  refine ⟨fun e => rfl, fun status d e hs => ?_, fun d e => ⟨_, rfl⟩⟩
  simp [Log.log, KubeConfig.getCurrentCluster, runPromise, completionCallback,
    onResponse, resolveP, rejectP, callDone, hs]

theorem log_transport_error_rejects_before_streaming_witness :
    (Log.log logA "default" "pod-1" "main" DoneOrOptions.undef none
        ⟨parseNone, Transcript.errorBeforeHeaders "ECONNREFUSED"⟩).settleCalls =
      [SettleCall.reject (RejectReason.transport "ECONNREFUSED")] :=
  (log_transport_error_rejects_before_streaming logA "default" "pod-1" "main"
    DoneOrOptions.undef none parseNone clusterA rfl).1 "ECONNREFUSED"

/-- Claim C6 counterexample: the claim says that whenever a legacy done
callback is provided it fires exactly once per invocation, but on an
invocation with a provided callback and no active cluster the method
throws before the request is made and the callback fires zero times. -/
theorem log_done_callback_no_cluster_counterexample :
    ((Log.log ⟨cfgNoCluster⟩ "default" "pod-1" "main" DoneOrOptions.func none
        ⟨parseNone, Transcript.headersThenBody 200 "line1"⟩).doneCalls.length == 1) = false := by
  rfl

/-- Claim C6 amended: on every invocation with an active cluster (so the
request is issued), the done callback fires exactly once — with the
transport error on a transport failure (before or after headers), with
the raw body text on a completed non-200 response, and with null on a
completed 200 response — independent of and in addition to the
resolve/reject outcome; when no cluster is configured the call throws
first and the callback does not fire. -/
theorem log_done_callback_once_when_request_issued (self : Log)
    (ns podName containerName : String) (doneOrOptions : DoneOrOptions)
    (options : Option JsObj) (pS : String → Option V1Status) (cl : Cluster)
    (h : self.config.getCurrentCluster = some cl) :
    (∀ e, (Log.log self ns podName containerName doneOrOptions options
        ⟨pS, Transcript.errorBeforeHeaders e⟩).doneCalls = [DoneArg.err e]) ∧
    (∀ status d e, (Log.log self ns podName containerName doneOrOptions options
        ⟨pS, Transcript.headersThenError status d e⟩).doneCalls = [DoneArg.err e]) ∧
    (∀ status body, status ≠ 200 →
      (Log.log self ns podName containerName doneOrOptions options
        ⟨pS, Transcript.headersThenBody status body⟩).doneCalls = [DoneArg.body body]) ∧
    (∀ body, (Log.log self ns podName containerName doneOrOptions options
        ⟨pS, Transcript.headersThenBody 200 body⟩).doneCalls = [DoneArg.null]) := by
  rcases self with ⟨⟨cc, app⟩⟩
  simp only [KubeConfig.getCurrentCluster] at h
  subst h
  refine ⟨fun e => rfl, fun status d e => ?_, fun status body hs => ?_, fun body => rfl⟩
  · by_cases hsc : status = 200 <;>
      simp [Log.log, KubeConfig.getCurrentCluster, runPromise, completionCallback,
        onResponse, resolveP, rejectP, callDone, hsc]
  · cases hp : pS body <;>
      simp [Log.log, KubeConfig.getCurrentCluster, runPromise, completionCallback,
        onResponse, resolveP, rejectP, callDone, hs, hp]

theorem log_done_callback_once_when_request_issued_witness :
    (Log.log logA "default" "pod-1" "main" DoneOrOptions.func none
        ⟨parseNone, Transcript.headersThenBody 200 "line1"⟩).doneCalls = [DoneArg.null] :=
  (log_done_callback_once_when_request_issued logA "default" "pod-1" "main"
    DoneOrOptions.func none parseNone clusterA rfl).2.2.2 "line1"

/-- Claim C7: with an active cluster, for every typed LogOptions value —
even with a conflicting container key present in the runtime options
object — the constructed request's query parameters contain every
defined option field with its value, the container parameter always
equals the supplied container name (the conflicting key is overridden),
and no other key is present. -/
theorem log_query_params (self : Log) (ns podName containerName : String)
    (o : LogOptions) (conflict : Option String) (options : Option JsObj)
    (env : Env) (cl : Cluster)
    (h : self.config.getCurrentCluster = some cl) :
    ∃ ro,
      (Log.log self ns podName containerName
        (DoneOrOptions.obj (o.toObj ++ conflict.toList.map fun c => ("container", QsVal.str c)))
        options env).applyCalls = [ro] ∧
      ro.qs.lookup "container" = some (QsVal.str containerName) ∧
      ro.qs.lookup "follow" = o.follow.map QsVal.bool ∧
      ro.qs.lookup "limitBytes" = o.limitBytes.map QsVal.num ∧
      ro.qs.lookup "pretty" = o.pretty.map QsVal.bool ∧
      ro.qs.lookup "previous" = o.previous.map QsVal.bool ∧
      ro.qs.lookup "sinceSeconds" = o.sinceSeconds.map QsVal.num ∧
      ro.qs.lookup "tailLines" = o.tailLines.map QsVal.num ∧
      ro.qs.lookup "timestamps" = o.timestamps.map QsVal.bool ∧
      (∀ k, k ∉ ("container" :: logOptionKeys) → ro.qs.lookup k = none) := by
  rcases self with ⟨⟨cc, app⟩⟩
  simp only [KubeConfig.getCurrentCluster] at h
  subst h
  have hq : ∀ k : String, k ≠ "container" →
      (objSet (o.toObj ++ conflict.toList.map fun c => ("container", QsVal.str c))
        "container" (QsVal.str containerName)).lookup k = o.toObj.lookup k := by
    intro k hk
    rw [lookup_objSet_other _ _ _ _ hk]
    refine lookup_append_skip _ _ _ ?_
    intro p hp
    rw [mem_optFieldKey hp]
    exact Ne.symm hk
  obtain ⟨h1, h2, h3, h4, h5, h6, h7⟩ := toObj_lookups o
  refine ⟨_, rfl, lookup_objSet_self _ _ _,
    (hq "follow" (by decide)).trans h1,
    (hq "limitBytes" (by decide)).trans h2,
    (hq "pretty" (by decide)).trans h3,
    (hq "previous" (by decide)).trans h4,
    (hq "sinceSeconds" (by decide)).trans h5,
    (hq "tailLines" (by decide)).trans h6,
    (hq "timestamps" (by decide)).trans h7, ?_⟩
  intro k hk
  have hkc : k ≠ "container" := by
    intro he
    exact hk (he ▸ List.mem_cons_self _ _)
  have hkeys : k ∉ logOptionKeys := fun hm => hk (List.mem_cons_of_mem _ hm)
  refine (hq k hkc).trans (lookup_keys_ne _ _ ?_)
  intro p hp he
  exact hkeys (he ▸ toObj_key_mem o p hp)

theorem log_query_params_witness :
    ∃ ro,
      (Log.log logA "default" "pod-1" "main"
        (DoneOrOptions.obj
          (({ follow := some true, tailLines := some 100 : LogOptions }).toObj ++
            (some "evil").toList.map fun c => ("container", QsVal.str c)))
        none envDefault).applyCalls = [ro] ∧
      ro.qs.lookup "container" = some (QsVal.str "main") ∧
      ro.qs.lookup "follow" = some (QsVal.bool true) ∧
      ro.qs.lookup "tailLines" = some (QsVal.num 100) ∧
      ro.qs.lookup "previous" = none := by
  obtain ⟨ro, ha, hc, hf, _, _, hpv, _, htl, _, _⟩ :=
    log_query_params logA "default" "pod-1" "main"
      { follow := some true, tailLines := some 100 } (some "evil") none envDefault
      clusterA rfl
  exact ⟨ro, ha, hc, hf, htl, hpv⟩
